import Mathlib

/-!
A shallow embedding of the sales-data HTTP API: an Express router over a single
PostgreSQL table `sales_data` (drizzle schema `salesData`). The router source is
embedded function by function: request handlers become pure Lean functions from
request data and a table state (a list of rows) to a response outcome and a new
table state. JavaScript values arriving in request bodies are modelled by an
explicit inductive type with JS truthiness and the JS numeric coercions
(`parseInt`, `parseFloat`, `isNaN`, `Number`) modelled as executable functions;
the special float `NaN` is modelled by `Option` (with `none` for `NaN`), so that
`Math.max`, `Math.min`, subtraction and multiplication propagate `NaN` exactly
as the floating-point operations do on integral inputs.
-/

namespace SalesAPI

/-- A JavaScript value as it can appear in a JSON request body or be absent.
Numbers are modelled by integers: every numeric literal the API handles is
integral or a 2-decimal price, and no claim distinguishes fractional numeric
inputs; the float `NaN` is a separate constructor. -/
inductive JVal where
  | undef
  | null
  | str (s : String)
  | num (n : Int)
  | nan
  | bool (b : Bool)
  deriving DecidableEq, Repr

/-- JS truthiness: `undefined`, `null`, the empty string, the number 0, `NaN`
and `false` are falsy, everything else is truthy. -/
def truthy : JVal → Bool
  | JVal.undef => false
  | JVal.null => false
  | JVal.str s => !(s == "")
  | JVal.num n => !(n == 0)
  | JVal.nan => false
  | JVal.bool b => b

/-- JS `String(v)` on the modelled values. -/
def jsToString : JVal → String
  | JVal.undef => "undefined"
  | JVal.null => "null"
  | JVal.str s => s
  | JVal.num n => toString n
  | JVal.nan => "NaN"
  | JVal.bool b => toString b

/-- Split a character list into its leading run of decimal digits and the rest. -/
def takeDigits : List Char → List Char × List Char
  | [] => ([], [])
  | c :: cs =>
    if c.isDigit then
      let p := takeDigits cs
      (c :: p.1, p.2)
    else ([], c :: cs)

/-- Value of a digit run read in base 10. -/
def digitsVal (ds : List Char) : Nat :=
  List.foldl (fun a c => a * 10 + (c.toNat - 48)) 0 ds

/-- Value of the leading digit run, or `none` when there is no leading digit. -/
def digitsVal? (cs : List Char) : Option Nat :=
  match takeDigits cs with
  | ([], _) => none
  | (ds, _) => some (digitsVal ds)

/-- Drop one optional leading sign character. -/
def stripSign : List Char → List Char
  | '-' :: r => r
  | '+' :: r => r
  | r => r

/-- Whether the list starts with a negative sign. -/
def isNeg : List Char → Bool
  | '-' :: _ => true
  | _ => false

/-- JS `parseInt` on a character list after whitespace stripping: an optional
sign followed by at least one digit; trailing garbage is ignored; `none` is
`NaN`. Radix prefixes are not modelled: no claim supplies one. -/
def leadInt (cs : List Char) : Option Int :=
  (digitsVal? (stripSign cs)).map (fun n => if isNeg cs then -(n : Int) else (n : Int))

/-- JS `parseInt(s)` for a string argument. -/
def jsParseIntStr (s : String) : Option Int :=
  leadInt (s.toList.dropWhile Char.isWhitespace)

/-- JS `parseInt(v)`: the argument is first converted to a string. -/
def jsParseInt (v : JVal) : Option Int :=
  jsParseIntStr (jsToString v)

/-- Unsigned part of JS `parseFloat`: digits with an optional fraction, or a
bare fraction starting with a dot; at least one digit must appear. Exponent
forms and Infinity are not modelled: no claim supplies them. -/
def leadFloatBody (cs : List Char) : Option ℚ :=
  match takeDigits cs with
  | ([], '.' :: r) =>
    match takeDigits r with
    | ([], _) => none
    | (ds2, _) => some ((digitsVal ds2 : ℚ) / (10 : ℚ) ^ ds2.length)
  | ([], _) => none
  | (ds, '.' :: r) =>
    let ds2 := (takeDigits r).1
    some ((digitsVal ds : ℚ) + (digitsVal ds2 : ℚ) / (10 : ℚ) ^ ds2.length)
  | (ds, _) => some (digitsVal ds : ℚ)

/-- JS `parseFloat` on a character list after whitespace stripping; `none` is
`NaN`. -/
def leadFloat (cs : List Char) : Option ℚ :=
  (leadFloatBody (stripSign cs)).map (fun q => if isNeg cs then -q else q)

/-- JS `parseFloat(v)`: the argument is first converted to a string. -/
def jsParseFloatQ (v : JVal) : Option ℚ :=
  leadFloat ((jsToString v).toList.dropWhile Char.isWhitespace)

/-- Whether a whole character list is a numeric literal: optional sign, then
digits with an optional fraction, nothing after. Used by the `Number`
coercion that `isNaN` performs. -/
def fullNumeric (cs : List Char) : Bool :=
  match takeDigits (stripSign cs) with
  | (ds, []) => !ds.isEmpty
  | (ds, '.' :: r) =>
    match takeDigits r with
    | (ds2, []) => !(ds.isEmpty && ds2.isEmpty)
    | _ => false
  | _ => false

/-- JS global `isNaN(v)`: coerce with `Number` and test for `NaN`. An empty or
all-whitespace string coerces to 0, a non-numeric string to `NaN`; `null` and
booleans coerce to 0 or 1, `undefined` to `NaN`. -/
def jsIsNaN : JVal → Bool
  | JVal.undef => true
  | JVal.null => false
  | JVal.bool _ => false
  | JVal.num _ => false
  | JVal.nan => true
  | JVal.str s =>
    let t := ((s.toList.dropWhile Char.isWhitespace).reverse.dropWhile
      Char.isWhitespace).reverse
    if t.isEmpty then false else !fullNumeric t

/-- A JS number restricted to the integral values the pagination code computes;
`none` is `NaN`. -/
abbrev JNum := Option Int

/-- JS `Math.max(a, x)` with an integer first argument: `NaN` propagates. -/
def jsMaxC (a : Int) : JNum → JNum
  | some b => some (max a b)
  | none => none

/-- JS `Math.min(a, x)` with an integer first argument: `NaN` propagates. -/
def jsMinC (a : Int) : JNum → JNum
  | some b => some (min a b)
  | none => none

/-- JS subtraction of an integer constant: `NaN` propagates. -/
def jsSub (x : JNum) (a : Int) : JNum :=
  x.map (fun b => b - a)

/-- JS multiplication: `NaN` propagates. -/
def jsMul : JNum → JNum → JNum
  | some a, some b => some (a * b)
  | _, _ => none

/-- JS `parseInt` applied to a query parameter with a numeric destructuring
default, as in `const { page = 1 } = req.query` followed by `parseInt(page)`:
an absent parameter takes the integer default (and `parseInt` of an integer is
that integer), a supplied parameter is a string and is parsed. -/
def jsParseIntQ : Option String → Int → JNum
  | some s, _ => jsParseIntStr s
  | none, d => some d

/-- Listing handler, line `const pageNum = Math.max(1, parseInt(page))` with
destructuring default `page = 1`. -/
def listPageNum (page : Option String) : JNum :=
  jsMaxC 1 (jsParseIntQ page 1)

/-- Listing handler, line
`const limitNum = Math.min(1000, Math.max(1, parseInt(limit)))` with
destructuring default `limit = 50`. -/
def listLimitNum (limit : Option String) : JNum :=
  jsMinC 1000 (jsMaxC 1 (jsParseIntQ limit 50))

/-- Listing handler, line `const offset = (pageNum - 1) * limitNum`. -/
def listOffset (page limit : Option String) : JNum :=
  jsMul (jsSub (listPageNum page) 1) (listLimitNum limit)

/-- Top-products handler, line
`const limitNum = Math.min(100, Math.max(1, parseInt(limit)))` with
destructuring default `limit = 10`. -/
def topLimitNum (limit : Option String) : JNum :=
  jsMinC 100 (jsMaxC 1 (jsParseIntQ limit 10))

/-- A row of the `sales_data` table. Timestamps are embedded as integers by an
order-preserving map, prices as exact rationals. -/
structure Row where
  invoiceNo : String
  stockCode : String
  description : Option String
  quantity : Int
  invoiceDate : Int
  unitPrice : ℚ
  customerId : Option Int
  country : String
  deriving DecidableEq, Repr

/-- The eight column properties of the drizzle table object `salesData`. -/
inductive Column where
  | invoiceNo
  | stockCode
  | description
  | quantity
  | invoiceDate
  | unitPrice
  | customerId
  | country
  deriving DecidableEq, Repr

/-- Own-property lookup on the drizzle table object (the `hasOwnProperty`
level): the column whose JS property name equals the given string, `none`
otherwise. The eight columns are the string-keyed own properties of
`salesData`; the column values are objects and therefore all truthy. Full JS
property access also traverses the prototype chain — see `salesDataGet`. -/
def salesDataLookup (s : String) : Option Column :=
  if s = "invoiceNo" then some Column.invoiceNo
  else if s = "stockCode" then some Column.stockCode
  else if s = "description" then some Column.description
  else if s = "quantity" then some Column.quantity
  else if s = "invoiceDate" then some Column.invoiceDate
  else if s = "unitPrice" then some Column.unitPrice
  else if s = "customerId" then some Column.customerId
  else if s = "country" then some Column.country
  else none

/-- String-keyed members that every JS object inherits from
`Object.prototype`. A property access with one of these names returns a
truthy value (a function, or the prototype object for the accessor) even
though the object has no such own property. The drizzle framework keeps the
table state in symbol-keyed slots, so these universal names are the inherited
string keys fixed by the language itself; any further string-keyed member a
framework prototype adds behaves identically — a truthy non-column member —
and would land in the same inherited case of `salesDataGet`. -/
def protoMemberNames : List String :=
  ["constructor", "hasOwnProperty", "isPrototypeOf", "propertyIsEnumerable",
    "toLocaleString", "toString", "valueOf", "__proto__", "__defineGetter__",
    "__defineSetter__", "__lookupGetter__", "__lookupSetter__"]

/-- The value a string-keyed property access can produce on the table
object. -/
inductive TableMember where
  | column (c : Column)
  | inherited (name : String)
  | undef
  deriving DecidableEq, Repr

/-- Dynamic property access `salesData[name]`: own column properties first,
then the prototype chain (a truthy inherited member such as `toString` or
`constructor`), and only then undefined. -/
def salesDataGet (s : String) : TableMember :=
  match salesDataLookup s with
  | some c => TableMember.column c
  | none =>
    if s ∈ protoMemberNames then TableMember.inherited s else TableMember.undef

/-- The sort field the statement builder receives: a schema column, or a
truthy inherited prototype member of the table object. -/
inductive SortKey where
  | column (c : Column)
  | inherited (name : String)
  deriving DecidableEq, Repr

/-- Listing handler, line
`const sortField = salesData[sortBy] || salesData.invoiceDate`, at the member
level: a column property is used as the sort column; an inherited prototype
member is truthy, so it short-circuits the `||` and itself becomes the sort
field; only a name missing from the whole chain takes the invoiceDate
fallback. -/
def sortFieldJs (sortBy : String) : SortKey :=
  match salesDataGet sortBy with
  | TableMember.column c => SortKey.column c
  | TableMember.inherited n => SortKey.inherited n
  | TableMember.undef => SortKey.column Column.invoiceDate

/-- Sort column driving the listing pipeline model: the own-column resolution
with the invoiceDate default. When the supplied name resolves to an inherited
prototype member instead (see `sortFieldJs`), the real order-by builder
receives a non-column value and the statement fails when the driver
serializes it; the listing model idealizes the storage collaborator as total
and keeps the default order there, which no claim inspects — the listing
claims are about row counts only, and a permutation does not change them. -/
def sortField (sortBy : String) : Column :=
  (salesDataLookup sortBy).getD Column.invoiceDate

/-- Order-faithful embedding of `new Date(s)` on date-only strings: a calendar
date string YYYY-MM-DD maps to the integer y * 10000 + m * 100 + d, which is
strictly monotone in calendar order, so the inclusive lower and upper bound
comparisons the handlers build are preserved. A string not of this form maps
through the same formula with 0 for unparseable components (an invalid-date
stand-in); no claim depends on such inputs. -/
def jsDate (s : String) : Int :=
  match s.splitOn "-" with
  | [y, m, d] =>
    (jsParseIntStr y).getD 0 * 10000 + (jsParseIntStr m).getD 0 * 100 +
      (jsParseIntStr d).getD 0
  | _ => 0

/-- JS `new Date(v)` for a body value: the value is stringified first. -/
def jsDateJ (v : JVal) : Int :=
  jsDate (jsToString v)

/-- Query parameters of the listing endpoint; every parameter is an optional
string, exactly as Express delivers `req.query`. -/
structure ListQuery where
  page : Option String
  limit : Option String
  country : Option String
  customerId : Option String
  startDate : Option String
  endDate : Option String
  sortBy : Option String
  sortOrder : Option String
  deriving DecidableEq, Repr

/-- One comparison pushed onto the `conditions` array. -/
inductive Cond where
  | countryEq (c : String)
  | customerIdEq (n : JNum)
  | dateGe (d : Int)
  | dateLe (d : Int)
  deriving DecidableEq, Repr

/-- Truthiness of an optional query-string parameter: present and non-empty.
A query-string value is always a string, so JS truthiness coincides with
non-emptiness. -/
def optTruthy : Option String → Bool
  | none => false
  | some s => !(s == "")

/-- Semantics of one condition on a row. `eq` on the nullable `customer_id`
column never matches a SQL NULL, and an equality against `NaN` (an unparseable
`customerId` parameter) matches no row. -/
def evalCond (r : Row) : Cond → Bool
  | Cond.countryEq c => r.country == c
  | Cond.customerIdEq n =>
    match n with
    | some v => r.customerId == some v
    | none => false
  | Cond.dateGe d => d ≤ r.invoiceDate
  | Cond.dateLe d => r.invoiceDate ≤ d

/-- Listing handler, lines building the `conditions` array: one push per
truthy parameter, in source order country, customerId, startDate, endDate. -/
def buildConditions (q : ListQuery) : List Cond :=
  (if optTruthy q.country then [Cond.countryEq (q.country.getD "")] else [])
  ++ (if optTruthy q.customerId then
        [Cond.customerIdEq (jsParseIntStr (q.customerId.getD ""))] else [])
  ++ (if optTruthy q.startDate then
        [Cond.dateGe (jsDate (q.startDate.getD ""))] else [])
  ++ (if optTruthy q.endDate then
        [Cond.dateLe (jsDate (q.endDate.getD ""))] else [])

/-- The WHERE clause `conditions.length > 0 ? and(...conditions) : undefined`:
the conjunction of all pushed conditions, vacuously true when none was
pushed. -/
def rowMatches (q : ListQuery) (r : Row) : Bool :=
  (buildConditions q).all (evalCond r)

/-- Spec-side rendering of the filter contract, written from the sentence: for
each parameter that is present and non-empty, add the corresponding comparison
to the predicate list. -/
def specCondOf (o : Option String) (f : String → Cond) : List Cond :=
  match o with
  | none => []
  | some s => if s = "" then [] else [f s]

/-- Spec-side predicate list: country equality, customerId equality after
integer coercion, inclusive invoiceDate lower bound, inclusive invoiceDate
upper bound, each present exactly when its parameter is present and
non-empty. -/
def specConds (q : ListQuery) : List Cond :=
  specCondOf q.country Cond.countryEq
  ++ specCondOf q.customerId (fun s => Cond.customerIdEq (jsParseIntStr s))
  ++ specCondOf q.startDate (fun s => Cond.dateGe (jsDate s))
  ++ specCondOf q.endDate (fun s => Cond.dateLe (jsDate s))

/-- Comparison of two rows under a sort column, ascending. Nullable columns
order with NULL first; the engine-specific NULL placement is irrelevant to
every claim. -/
def colLe : Column → Row → Row → Bool
  | Column.invoiceNo, a, b => a.invoiceNo ≤ b.invoiceNo
  | Column.stockCode, a, b => a.stockCode ≤ b.stockCode
  | Column.description, a, b =>
    match a.description, b.description with
    | none, _ => true
    | some _, none => false
    | some x, some y => x ≤ y
  | Column.quantity, a, b => a.quantity ≤ b.quantity
  | Column.invoiceDate, a, b => a.invoiceDate ≤ b.invoiceDate
  | Column.unitPrice, a, b => a.unitPrice ≤ b.unitPrice
  | Column.customerId, a, b =>
    match a.customerId, b.customerId with
    | none, _ => true
    | some _, none => false
    | some x, some y => x ≤ y
  | Column.country, a, b => a.country ≤ b.country

/-- Listing handler, line
`const orderBy = sortOrder === "asc" ? asc(sortField) : desc(sortField)` with
destructuring default `sortOrder = "desc"`: any value other than the exact
string asc sorts descending. -/
def orderCmp (field : Column) (sortOrder : Option String) : Row → Row → Bool :=
  if sortOrder.getD "desc" == "asc" then colLe field
  else fun a b => colLe field b a

/-- Insert a row into a list at the first position where it compares at or
below the head, the standard insertion step of a stable sort. -/
def orderedIns (le : Row → Row → Bool) (x : Row) : List Row → List Row
  | [] => [x]
  | y :: ys => if le x y then x :: y :: ys else y :: orderedIns le x ys

/-- The ORDER BY applied to the filtered rows, modelled as an insertion sort;
only the multiset of rows and in particular the length matter to the claims. -/
def sortRows (le : Row → Row → Bool) : List Row → List Row
  | [] => []
  | x :: xs => orderedIns le x (sortRows le xs)

/-- The filtered and sorted row list of the listing data query, before LIMIT
and OFFSET. -/
def listSorted (q : ListQuery) (tbl : List Row) : List Row :=
  sortRows (orderCmp (sortField (q.sortBy.getD "invoiceDate")) q.sortOrder)
    (tbl.filter (rowMatches q))

/-- The listing count query: the same predicate as the data query, no sort,
limit or offset. -/
def listTotal (q : ListQuery) (tbl : List Row) : Nat :=
  (tbl.filter (rowMatches q)).length

/-- The listing data query with LIMIT and OFFSET applied; a `NaN` offset or
limit makes the statement fail, modelled as `none`. -/
def listData (q : ListQuery) (tbl : List Row) : Option (List Row) :=
  match listOffset q.page q.limit, listLimitNum q.limit with
  | some o, some l => some (((listSorted q tbl).drop o.toNat).take l.toNat)
  | _, _ => none

/-- Rounded-up division on natural numbers. -/
def ceilDivN (n k : Nat) : Nat :=
  (n + k - 1) / k

/-- Listing handler, line `const totalPages = Math.ceil(total / limitNum)`:
for the nonnegative integer total and the clamped positive integer limit this
float computation is exact and equals rounded-up integer division; a `NaN`
limit propagates. -/
def listTotalPages (q : ListQuery) (tbl : List Row) : JNum :=
  match listLimitNum q.limit with
  | some l => some (Int.ofNat (ceilDivN (listTotal q tbl) l.toNat))
  | none => none

/-- The composite-key predicate
`and(eq(salesData.invoiceNo, invoiceNo), eq(salesData.stockCode, stockCode))`
shared by the get-one, update and delete handlers. -/
def keyMatches (invNo stkCode : String) (r : Row) : Bool :=
  r.invoiceNo == invNo && r.stockCode == stkCode

/-- The get-one select: composite-key predicate capped by `.limit(1)`. -/
def getOneSelect (invNo stkCode : String) (tbl : List Row) : List Row :=
  (tbl.filter (keyMatches invNo stkCode)).take 1

/-- Response outcome of the get-one handler. -/
inductive GetOutcome where
  | notFound
  | ok (record : Row)
  deriving DecidableEq, Repr

/-- Get-one handler: 404 when the select is empty, otherwise 200 with
`record[0]`. -/
def getOneHandler (invNo stkCode : String) (tbl : List Row) : GetOutcome :=
  match getOneSelect invNo stkCode tbl with
  | [] => GetOutcome.notFound
  | r :: _ => GetOutcome.ok r

/-- Request body of the create handler; absent properties destructure to
`undefined`. -/
structure CreateBody where
  invoiceNo : JVal
  stockCode : JVal
  description : JVal
  quantity : JVal
  invoiceDate : JVal
  unitPrice : JVal
  customerId : JVal
  country : JVal
  deriving DecidableEq, Repr

/-- JS `toFixed(2)` followed by the numeric column storing the result: round
to 2 decimal places. On the exact decimal inputs the API receives this is
exact; binary-float tie behaviour never arises in any claim. -/
def toFixed2 (q : ℚ) : ℚ :=
  (round (q * 100) : ℚ) / 100

/-- Create handler, line
`customerId: customerId ? parseInt(customerId) : null`: a falsy value stores
SQL NULL (`none`); a truthy one stores the `parseInt` image, itself `NaN`
(`some none`) when unparseable. -/
def createStoredCustomerId (v : JVal) : Option JNum :=
  if truthy v then some (jsParseInt v) else none

/-- Update handler, line
`updateData.customerId = customerId ? parseInt(customerId) : null`, textually
identical to the create expression. -/
def updateStoredCustomerId (v : JVal) : Option JNum :=
  if truthy v then some (jsParseInt v) else none

/-- The `newRecord` object the create handler passes to the insert. -/
structure NewRecord where
  invoiceNo : String
  stockCode : String
  description : Option JVal
  quantity : JNum
  invoiceDate : Int
  unitPrice : ℚ
  customerId : Option JNum
  country : String
  deriving DecidableEq, Repr

/-- Response outcome of the create handler up to the storage call: either an
early 400, or the insert is attempted with the built record. -/
inductive CreateOutcome where
  | badRequest (msg : String)
  | insertAttempted (record : NewRecord)
  deriving DecidableEq, Repr

/-- Create handler: the falsy-field guard, the numeric-type guard, then the
insert with the normalized record. -/
def createHandler (b : CreateBody) : CreateOutcome :=
  if !(truthy b.invoiceNo && truthy b.stockCode && truthy b.quantity &&
      truthy b.invoiceDate && truthy b.unitPrice && truthy b.country) then
    CreateOutcome.badRequest
      "Missing required fields: invoiceNo, stockCode, quantity, invoiceDate, unitPrice, country"
  else if jsIsNaN b.quantity || !(jsParseFloatQ b.unitPrice).isSome then
    CreateOutcome.badRequest
      "Quantity must be an integer and unitPrice must be a number"
  else
    CreateOutcome.insertAttempted
      { invoiceNo := jsToString b.invoiceNo
        stockCode := jsToString b.stockCode
        description := if truthy b.description then some b.description else none
        quantity := jsParseInt b.quantity
        invoiceDate := jsDateJ b.invoiceDate
        unitPrice := toFixed2 ((jsParseFloatQ b.unitPrice).getD 0)
        customerId := createStoredCustomerId b.customerId
        country := jsToString b.country }

/-- Whether the create handler reached the insert. -/
def isInsertAttempt : CreateOutcome → Bool
  | CreateOutcome.insertAttempted _ => true
  | CreateOutcome.badRequest _ => false

/-- Spec-side reading of a required body field being present and non-empty:
in the body, not null, and not the empty string. -/
def presentNonEmpty : JVal → Bool
  | JVal.undef => false
  | JVal.null => false
  | JVal.str s => !(s == "")
  | _ => true

/-- Request body of the update handler; absent properties destructure to
`undefined`. The handler never reads invoiceNo or stockCode from the body. -/
structure UpdateBody where
  description : JVal
  quantity : JVal
  invoiceDate : JVal
  unitPrice : JVal
  customerId : JVal
  country : JVal
  deriving DecidableEq, Repr

/-- The `updateData` object: `some` marks a property the handler assigned. -/
structure UpdateData where
  description : Option JVal
  quantity : Option JNum
  invoiceDate : Option Int
  unitPrice : Option ℚ
  customerId : Option (Option JNum)
  country : Option JVal
  deriving DecidableEq, Repr

/-- The freshly created empty `updateData` object. -/
def emptyUpdate : UpdateData :=
  ⟨none, none, none, none, none, none⟩

/-- Field assignment `if (description !== undefined) updateData.description = description`. -/
def updDescription (b : UpdateBody) : Option JVal :=
  if b.description == JVal.undef then none else some b.description

/-- Field assignment `updateData.quantity = parseInt(quantity)` when defined. -/
def updQuantity (b : UpdateBody) : Option JNum :=
  if b.quantity == JVal.undef then none else some (jsParseInt b.quantity)

/-- Field assignment `updateData.invoiceDate = new Date(invoiceDate)` when
defined. -/
def updInvoiceDate (b : UpdateBody) : Option Int :=
  if b.invoiceDate == JVal.undef then none else some (jsDateJ b.invoiceDate)

/-- Field assignment `updateData.unitPrice = parseFloat(unitPrice).toFixed(2)`
when defined; the guard in `buildUpdate` ensures the parse succeeded before
this value is used. -/
def updUnitPrice (b : UpdateBody) : Option ℚ :=
  if b.unitPrice == JVal.undef then none
  else some (toFixed2 ((jsParseFloatQ b.unitPrice).getD 0))

/-- Field assignment
`updateData.customerId = customerId ? parseInt(customerId) : null` when
defined. -/
def updCustomerId (b : UpdateBody) : Option (Option JNum) :=
  if b.customerId == JVal.undef then none
  else some (updateStoredCustomerId b.customerId)

/-- Field assignment `updateData.country = country` when defined. -/
def updCountry (b : UpdateBody) : Option JVal :=
  if b.country == JVal.undef then none else some b.country

/-- The sequential build of `updateData` with its two early 400 returns. The
two validation guards abort before anything response-visible happens, so they
are hoisted ahead of the pure field computations; the outcome is identical to
the source interleaving of assignments and guards. -/
def buildUpdate (b : UpdateBody) : Except String UpdateData :=
  if b.quantity != JVal.undef && jsIsNaN b.quantity then
    Except.error "Quantity must be a number"
  else if b.unitPrice != JVal.undef && !(jsParseFloatQ b.unitPrice).isSome then
    Except.error "Unit price must be a number"
  else
    Except.ok
      ⟨updDescription b, updQuantity b, updInvoiceDate b, updUnitPrice b,
        updCustomerId b, updCountry b⟩

/-- `Object.keys(updateData).length`. -/
def updCount (d : UpdateData) : Nat :=
  (if d.description.isSome then 1 else 0) +
  (if d.quantity.isSome then 1 else 0) +
  (if d.invoiceDate.isSome then 1 else 0) +
  (if d.unitPrice.isSome then 1 else 0) +
  (if d.customerId.isSome then 1 else 0) +
  (if d.country.isSome then 1 else 0)

/-- Storage coercion of a JS value into a nullable varchar column: null
stores SQL NULL, a string stores itself, any other value its text form. -/
def jvalToOptStr : JVal → Option String
  | JVal.null => none
  | JVal.undef => none
  | JVal.str s => some s
  | v => some (jsToString v)

/-- The UPDATE ... SET applied to one matched row. A `NaN` quantity or a NULL
country would make the storage layer reject the whole statement; no claim
reaches those cases, and the 0 and empty-string images are formal placeholders
on those unreached branches. -/
def applyUpdate (d : UpdateData) (r : Row) : Row :=
  { r with
    description :=
      match d.description with
      | some v => jvalToOptStr v
      | none => r.description
    quantity :=
      match d.quantity with
      | some jn => jn.getD 0
      | none => r.quantity
    invoiceDate := d.invoiceDate.getD r.invoiceDate
    unitPrice := d.unitPrice.getD r.unitPrice
    customerId :=
      match d.customerId with
      | some v => v.bind (fun x => x)
      | none => r.customerId
    country :=
      match d.country with
      | some v => (jvalToOptStr v).getD ""
      | none => r.country }

/-- Response outcome of the update handler. -/
inductive UpdateOutcome where
  | badRequest (msg : String)
  | notFound
  | ok (updated : Row)
  deriving DecidableEq, Repr

/-- Update handler: build `updateData` with its validations, reject an empty
update set before any storage call, otherwise run the composite-key UPDATE
with RETURNING; zero returned rows is 404, else 200 with the first returned
row. -/
def updateHandler (invNo stkCode : String) (b : UpdateBody) (tbl : List Row) :
    UpdateOutcome × List Row :=
  match buildUpdate b with
  | Except.error m => (UpdateOutcome.badRequest m, tbl)
  | Except.ok d =>
    if updCount d == 0 then
      (UpdateOutcome.badRequest "No fields provided for update", tbl)
    else
      let newTbl := tbl.map
        (fun r => if keyMatches invNo stkCode r then applyUpdate d r else r)
      match (tbl.filter (keyMatches invNo stkCode)).map (applyUpdate d) with
      | [] => (UpdateOutcome.notFound, newTbl)
      | u :: _ => (UpdateOutcome.ok u, newTbl)

/-- Response outcome of the delete handler. -/
inductive DeleteOutcome where
  | notFound
  | ok (deleted : Row)
  deriving DecidableEq, Repr

/-- Delete handler: composite-key DELETE with RETURNING; zero returned rows is
404, else 200 echoing `result[0]`. -/
def deleteHandler (invNo stkCode : String) (tbl : List Row) :
    DeleteOutcome × List Row :=
  let remaining := tbl.filter (fun r => !(keyMatches invNo stkCode r))
  match tbl.filter (keyMatches invNo stkCode) with
  | [] => (DeleteOutcome.notFound, remaining)
  | r :: _ => (DeleteOutcome.ok r, remaining)

/-- Query parameters of the summary endpoint. -/
structure SummaryQuery where
  startDate : Option String
  endDate : Option String
  country : Option String
  deriving DecidableEq, Repr

/-- Summary handler, lines building the `conditions` array, in source order
startDate, endDate, country. -/
def summaryConds (q : SummaryQuery) : List Cond :=
  (if optTruthy q.startDate then
      [Cond.dateGe (jsDate (q.startDate.getD ""))] else [])
  ++ (if optTruthy q.endDate then
        [Cond.dateLe (jsDate (q.endDate.getD ""))] else [])
  ++ (if optTruthy q.country then [Cond.countryEq (q.country.getD "")] else [])

/-- The summary WHERE clause. -/
def summaryMatches (q : SummaryQuery) (r : Row) : Bool :=
  (summaryConds q).all (evalCond r)

/-- SQL `SUM` over a rational expression: NULL on an empty set. -/
def sqlSumQ (xs : List ℚ) : Option ℚ :=
  match xs with
  | [] => none
  | _ => some xs.sum

/-- SQL `SUM` over an integer column: NULL on an empty set. -/
def sqlSumI (xs : List Int) : Option Int :=
  match xs with
  | [] => none
  | _ => some xs.sum

/-- SQL `AVG` over a rational expression: NULL on an empty set. -/
def sqlAvgQ (xs : List ℚ) : Option ℚ :=
  match xs with
  | [] => none
  | _ => some (xs.sum / (xs.length : ℚ))

/-- The summary response body after the null-coercions
`parseFloat(x || 0)` and `parseInt(x || 0)`. -/
structure SummaryData where
  totalSales : ℚ
  totalQuantity : Int
  totalOrders : Nat
  averageOrderValue : ℚ
  deriving DecidableEq, Repr

/-- Summary handler: the four aggregates over the matched rows, each NULL
result coerced to zero by `x || 0` before the numeric parse. -/
def summaryHandler (q : SummaryQuery) (tbl : List Row) : SummaryData :=
  let m := tbl.filter (summaryMatches q)
  { totalSales := (sqlSumQ (m.map (fun r => (r.quantity : ℚ) * r.unitPrice))).getD 0
    totalQuantity := (sqlSumI (m.map Row.quantity)).getD 0
    totalOrders := m.length
    averageOrderValue :=
      (sqlAvgQ (m.map (fun r => (r.quantity : ℚ) * r.unitPrice))).getD 0 }

/-- A concrete sample row, the record of the documentation example. -/
def row0 : Row :=
  { invoiceNo := "536365"
    stockCode := "85123A"
    description := some "WHITE HANGING HEART T-LIGHT HOLDER"
    quantity := 6
    invoiceDate := 20101201
    unitPrice := (51 : ℚ) / 20
    customerId := some 17850
    country := "United Kingdom" }

/-- A listing query with no parameter supplied. -/
def qAllAbsent : ListQuery :=
  ⟨none, none, none, none, none, none, none, none⟩

/-- A listing query with only pagination supplied. -/
def qPaged : ListQuery :=
  ⟨some "1", some "5", none, none, none, none, none, none⟩

/-- A summary query whose country filter matches no sample row. -/
def sq0 : SummaryQuery :=
  ⟨none, none, some "France"⟩

/-- A create body that is valid except for a zero quantity. -/
def cb0 : CreateBody :=
  { invoiceNo := JVal.str "536365"
    stockCode := JVal.str "85123A"
    description := JVal.undef
    quantity := JVal.num 0
    invoiceDate := JVal.str "2010-12-01"
    unitPrice := JVal.str "2.55"
    customerId := JVal.undef
    country := JVal.str "United Kingdom" }

/-- The same create body with a positive quantity. -/
def cbGood : CreateBody :=
  { cb0 with quantity := JVal.num 6 }

/-- An update body with every property absent. -/
def ub0 : UpdateBody :=
  ⟨JVal.undef, JVal.undef, JVal.undef, JVal.undef, JVal.undef, JVal.undef⟩

/-- C1 counterexample: the supplied name country is not on the three-element
allow-list, yet the ordering field that reaches the statement is the country
column, not the invoiceDate fallback. -/
theorem sortBy_allowlist_cex :
    sortField "country" = Column.country ∧
    Column.country ∉
      ([Column.invoiceDate, Column.unitPrice, Column.quantity] : List Column) ∧
    "country" ∉ (["invoiceDate", "unitPrice", "quantity"] : List String) := by
  decide

/-- C1 (amended): the ordering field that reaches the statement is never raw
caller text, but it is not restricted to the three-element allow-list either:
a supplied name equal to one of the eight column properties is used as the
sort column; a supplied name equal to a string-keyed inherited prototype
member of the table object is truthy and itself becomes the sort field —
neither a schema column nor the invoiceDate fallback; an inherited sort field
arises only this way, for the name itself; and a name matching no property on
the modelled chain falls back to invoiceDate. -/
theorem sortBy_column_or_fallback (s : String) :
    (∀ c, salesDataLookup s = some c → sortFieldJs s = SortKey.column c) ∧
    (salesDataLookup s = none → s ∈ protoMemberNames →
      sortFieldJs s = SortKey.inherited s) ∧
    (∀ n, sortFieldJs s = SortKey.inherited n →
      n = s ∧ n ∈ protoMemberNames ∧ salesDataLookup s = none) ∧
    (s ∉ (["invoiceNo", "stockCode", "description", "quantity", "invoiceDate",
        "unitPrice", "customerId", "country"] : List String) →
      s ∉ protoMemberNames → sortFieldJs s = SortKey.column Column.invoiceDate) := by
  refine ⟨?_, ?_, ?_, ?_⟩
  · intro c hc
    simp [sortFieldJs, salesDataGet, hc]
  · intro hc hp
    simp [sortFieldJs, salesDataGet, hc, hp]
  · intro n hn
    unfold sortFieldJs salesDataGet at hn
    cases hc : salesDataLookup s with
    | some c => rw [hc] at hn; cases hn
    | none =>
      rw [hc] at hn
      by_cases hp : s ∈ protoMemberNames
      · rw [if_pos hp] at hn
        exact ⟨(SortKey.inherited.inj hn).symm, (SortKey.inherited.inj hn) ▸ hp,
          rfl⟩
      · rw [if_neg hp] at hn
        cases hn
  · intro hnames hp
    have hc : salesDataLookup s = none := by
      simp only [List.mem_cons, List.not_mem_nil, or_false, not_or] at hnames
      obtain ⟨h1, h2, h3, h4, h5, h6, h7, h8⟩ := hnames
      simp [salesDataLookup, h1, h2, h3, h4, h5, h6, h7, h8]
    simp [sortFieldJs, salesDataGet, hc, hp]

/-- C1 witness: the inherited toString member itself becomes the sort field,
and a name missing from the whole chain falls back to invoiceDate. -/
theorem sortBy_column_or_fallback_witness :
    sortFieldJs "toString" = SortKey.inherited "toString" ∧
    sortFieldJs "dropTable" = SortKey.column Column.invoiceDate :=
  ⟨(sortBy_column_or_fallback "toString").2.1 (by decide) (by decide),
    (sortBy_column_or_fallback "dropTable").2.2.2 (by decide) (by decide)⟩

/-- One filter block of the source equals the corresponding spec-side block. -/
theorem cond_block_eq (o : Option String) (f : String → Cond) :
    (if optTruthy o then [f (o.getD "")] else []) = specCondOf o f := by
  cases o with
  | none => rfl
  | some s => by_cases h : s = "" <;> simp [optTruthy, specCondOf, h]

/-- C4: the listing filter is the conjunction of exactly the comparisons for
the parameters that are present and non-empty, and with no condition present
the query matches every row. -/
theorem filter_conditions_exact (q : ListQuery) (r : Row) :
    buildConditions q = specConds q ∧
    (buildConditions q = [] → rowMatches q r = true) := by
  constructor
  · unfold buildConditions specConds
    rw [cond_block_eq q.country Cond.countryEq,
      cond_block_eq q.customerId (fun s => Cond.customerIdEq (jsParseIntStr s)),
      cond_block_eq q.startDate (fun s => Cond.dateGe (jsDate s)),
      cond_block_eq q.endDate (fun s => Cond.dateLe (jsDate s))]
  · intro h
    simp [rowMatches, h]

/-- C4 witness: with no filter parameter supplied every row matches. -/
theorem filter_conditions_exact_witness :
    rowMatches qAllAbsent row0 = true :=
  (filter_conditions_exact qAllAbsent row0).2 (by rfl)

/-- The table state after a delete is the same in both response branches. -/
theorem delete_snd (invNo stkCode : String) (tbl : List Row) :
    (deleteHandler invNo stkCode tbl).2 =
      tbl.filter (fun r => !(keyMatches invNo stkCode r)) := by
  unfold deleteHandler
  cases tbl.filter (keyMatches invNo stkCode) <;> rfl

/-- C7: delete matches exactly the composite key: the response is not-found
exactly when no row matches, a success echoes a deleted (matching) row, and a
second delete of the same key always reports not-found. -/
theorem delete_composite_key (invNo stkCode : String) (tbl : List Row) :
    ((deleteHandler invNo stkCode tbl).1 = DeleteOutcome.notFound ↔
      ∀ r ∈ tbl, keyMatches invNo stkCode r = false) ∧
    (∀ r, (deleteHandler invNo stkCode tbl).1 = DeleteOutcome.ok r →
      r ∈ tbl ∧ keyMatches invNo stkCode r = true) ∧
    (deleteHandler invNo stkCode ((deleteHandler invNo stkCode tbl).2)).1 =
      DeleteOutcome.notFound := by
  refine ⟨?_, ?_, ?_⟩
  · unfold deleteHandler
    cases hf : tbl.filter (keyMatches invNo stkCode) with
    | nil =>
      simp only [true_iff]
      intro r hr
      by_contra hk
      have : r ∈ tbl.filter (keyMatches invNo stkCode) :=
        List.mem_filter.mpr ⟨hr, by simpa using hk⟩
      rw [hf] at this
      exact absurd this (List.not_mem_nil r)
    | cons x xs =>
      simp only [iff_false_intro]
      constructor
      · intro h; cases h
      · intro hall
        have hx : x ∈ tbl.filter (keyMatches invNo stkCode) := by
          rw [hf]; exact List.mem_cons_self x xs
        have := List.mem_filter.mp hx
        exact absurd (hall x this.1) (by simp [this.2])
  · intro r hr
    unfold deleteHandler at hr
    cases hf : tbl.filter (keyMatches invNo stkCode) with
    | nil => rw [hf] at hr; cases hr
    | cons x xs =>
      rw [hf] at hr
      simp only at hr
      have hx : x ∈ tbl.filter (keyMatches invNo stkCode) := by
        rw [hf]; exact List.mem_cons_self x xs
      have hmem := List.mem_filter.mp hx
      cases hr
      exact ⟨hmem.1, hmem.2⟩
  · rw [delete_snd]
    unfold deleteHandler
    have hnil : (tbl.filter (fun r => !(keyMatches invNo stkCode r))).filter
        (keyMatches invNo stkCode) = [] := by
      rw [List.filter_filter]
      apply List.filter_eq_nil_iff.mpr
      intro a _
      simp [Bool.and_comm]
    rw [hnil]

/-- C7 witness: deleting the sample key twice ends in not-found. -/
theorem delete_composite_key_witness :
    (deleteHandler "536365" "85123A"
      ((deleteHandler "536365" "85123A" [row0]).2)).1 = DeleteOutcome.notFound :=
  (delete_composite_key "536365" "85123A" [row0]).2.2

/-- C8: when the filter matches no rows the summary succeeds with every
aggregate coerced to zero. -/
theorem summary_empty_zero (q : SummaryQuery) (tbl : List Row)
    (h : tbl.filter (summaryMatches q) = []) :
    summaryHandler q tbl =
      { totalSales := 0, totalQuantity := 0, totalOrders := 0,
        averageOrderValue := 0 } := by
  simp [summaryHandler, h, sqlSumQ, sqlSumI, sqlAvgQ]

/-- C8 witness: a country filter matching no row yields the zero summary. -/
theorem summary_empty_zero_witness :
    summaryHandler sq0 [row0] =
      { totalSales := 0, totalQuantity := 0, totalOrders := 0,
        averageOrderValue := 0 } :=
  summary_empty_zero sq0 [row0] (by decide)

/-- C9: the get-one select is capped at one row even when several rows share
the composite key, and a success carries exactly one record. -/
theorem get_one_at_most_one (invNo stkCode : String) (tbl : List Row) :
    (getOneSelect invNo stkCode tbl).length ≤ 1 ∧
    (∀ r, getOneHandler invNo stkCode tbl = GetOutcome.ok r →
      getOneSelect invNo stkCode tbl = [r]) := by
  constructor
  · unfold getOneSelect
    exact List.length_take_le 1 (tbl.filter (keyMatches invNo stkCode))
  · intro r hr
    unfold getOneHandler getOneSelect at hr
    unfold getOneSelect
    cases hf : tbl.filter (keyMatches invNo stkCode) with
    | nil => rw [hf] at hr; cases hr
    | cons x xs =>
      rw [hf] at hr
      simp only [List.take_succ_cons, List.take_zero] at hr ⊢
      cases hr
      rfl

/-- C9 witness: with two duplicate-key rows in the table the successful
response still carries exactly one record. -/
theorem get_one_at_most_one_witness :
    getOneSelect "536365" "85123A" [row0, row0] = [row0] :=
  (get_one_at_most_one "536365" "85123A" [row0, row0]).2 row0 (by rfl)

/-- C10: a falsy customerId — including the number 0, the empty string and
null, not only an absent field — is stored as SQL NULL by both the create and
the update handler. -/
theorem customerId_falsy_null (v : JVal) (h : truthy v = false) :
    createStoredCustomerId v = none ∧ updateStoredCustomerId v = none := by
  simp [createStoredCustomerId, updateStoredCustomerId, h]

/-- C10 witness: customerId 0 persists as NULL in create and update. -/
theorem customerId_falsy_null_witness :
    truthy (JVal.num 0) = false ∧
    createStoredCustomerId (JVal.num 0) = none ∧
    updateStoredCustomerId (JVal.num 0) = none :=
  ⟨by decide, (customerId_falsy_null (JVal.num 0) (by decide)).1,
    (customerId_falsy_null (JVal.num 0) (by decide)).2⟩

/-- C2 counterexample: a create body whose six required fields are all present
and non-empty and whose numeric fields parse — quantity is the number 0 — is
rejected before the insert. -/
theorem create_zero_quantity_cex :
    isInsertAttempt (createHandler cb0) = false ∧
    presentNonEmpty cb0.invoiceNo = true ∧
    presentNonEmpty cb0.stockCode = true ∧
    presentNonEmpty cb0.quantity = true ∧
    presentNonEmpty cb0.invoiceDate = true ∧
    presentNonEmpty cb0.unitPrice = true ∧
    presentNonEmpty cb0.country = true ∧
    jsIsNaN cb0.quantity = false ∧
    (jsParseFloatQ cb0.unitPrice).isSome = true := by
  decide

/-- C2 (amended): the create handler attempts the insert exactly when all six
required fields are truthy under JS truthiness — so the number 0, NaN and
false also count as missing — and quantity passes the isNaN check and
unitPrice parses with parseFloat; otherwise it rejects before any storage
call. -/
theorem create_accepts_iff (b : CreateBody) :
    isInsertAttempt (createHandler b) = true ↔
      (truthy b.invoiceNo = true ∧ truthy b.stockCode = true ∧
       truthy b.quantity = true ∧ truthy b.invoiceDate = true ∧
       truthy b.unitPrice = true ∧ truthy b.country = true ∧
       jsIsNaN b.quantity = false ∧
       (jsParseFloatQ b.unitPrice).isSome = true) := by
  constructor
  · intro h
    unfold createHandler at h
    by_cases hA : (!(truthy b.invoiceNo && truthy b.stockCode &&
        truthy b.quantity && truthy b.invoiceDate && truthy b.unitPrice &&
        truthy b.country)) = true
    · rw [if_pos hA] at h
      exact absurd h (by simp [isInsertAttempt])
    · rw [if_neg hA] at h
      by_cases hB : (jsIsNaN b.quantity ||
          !(jsParseFloatQ b.unitPrice).isSome) = true
      · rw [if_pos hB] at h
        exact absurd h (by simp [isInsertAttempt])
      · have hA' : (truthy b.invoiceNo && truthy b.stockCode &&
            truthy b.quantity && truthy b.invoiceDate && truthy b.unitPrice &&
            truthy b.country) = true := by
          revert hA
          cases truthy b.invoiceNo && truthy b.stockCode && truthy b.quantity &&
            truthy b.invoiceDate && truthy b.unitPrice && truthy b.country <;>
            simp
        have hq : jsIsNaN b.quantity = false := by
          revert hB
          cases jsIsNaN b.quantity <;> simp
        have hu : (jsParseFloatQ b.unitPrice).isSome = true := by
          revert hB
          cases (jsParseFloatQ b.unitPrice).isSome <;> simp
        simp only [Bool.and_eq_true] at hA'
        exact ⟨hA'.1.1.1.1.1, hA'.1.1.1.1.2, hA'.1.1.1.2, hA'.1.1.2, hA'.1.2,
          hA'.2, hq, hu⟩
  · rintro ⟨t1, t2, t3, t4, t5, t6, hq, hu⟩
    simp [createHandler, isInsertAttempt, t1, t2, t3, t4, t5, t6, hq, hu]

/-- C2 witness: the documentation example body reaches the insert. -/
theorem create_accepts_iff_witness :
    isInsertAttempt (createHandler cbGood) = true :=
  (create_accepts_iff cbGood).mpr (by decide)

/-- C3 counterexample: non-numeric page and limit parameters take no default
and are not clamped — the effective values and the offset are NaN. -/
theorem pagination_nan_cex :
    listPageNum (some "abc") = none ∧
    listOffset (some "abc") (some "10") = none ∧
    listLimitNum (some "xyz") = none ∧
    topLimitNum (some "xyz") = none := by
  decide

/-- C3 (amended): whenever a page or limit parameter is absent or parses as
an integer, the documented defaults, clamps and offset formula hold: page
defaults to 1 and is at least 1, the listing limit defaults to 50 inside
[1, 1000], the top-products limit defaults to 10 inside [1, 100], and the
offset is (page - 1) times the effective limit; a parameter that fails
integer parsing instead yields NaN, which propagates to the offset. -/
theorem pagination_clamped (page limit tp : Option String) (p0 l0 t0 : Int)
    (hp : jsParseIntQ page 1 = some p0) (hl : jsParseIntQ limit 50 = some l0)
    (ht : jsParseIntQ tp 10 = some t0) :
    listPageNum page = some (max 1 p0) ∧
    listLimitNum limit = some (min 1000 (max 1 l0)) ∧
    topLimitNum tp = some (min 100 (max 1 t0)) ∧
    listOffset page limit = some ((max 1 p0 - 1) * min 1000 (max 1 l0)) ∧
    (∀ p, listPageNum page = some p → 1 ≤ p) ∧
    (∀ l, listLimitNum limit = some l → 1 ≤ l ∧ l ≤ 1000) ∧
    (∀ t, topLimitNum tp = some t → 1 ≤ t ∧ t ≤ 100) ∧
    (page = none → listPageNum page = some 1) ∧
    (limit = none → listLimitNum limit = some 50) ∧
    (tp = none → topLimitNum tp = some 10) := by
  have hP : listPageNum page = some (max 1 p0) := by
    unfold listPageNum; rw [hp]; rfl
  have hL : listLimitNum limit = some (min 1000 (max 1 l0)) := by
    unfold listLimitNum; rw [hl]; rfl
  have hT : topLimitNum tp = some (min 100 (max 1 t0)) := by
    unfold topLimitNum; rw [ht]; rfl
  refine ⟨hP, hL, hT, ?_, ?_, ?_, ?_, ?_, ?_, ?_⟩
  · unfold listOffset
    rw [hP, hL]; rfl
  · intro p hpp
    rw [hP] at hpp
    injection hpp with hpp
    omega
  · intro l hll
    rw [hL] at hll
    injection hll with hll
    omega
  · intro t htt
    rw [hT] at htt
    injection htt with htt
    omega
  · intro hnone
    subst hnone
    simp only [jsParseIntQ, Option.some.injEq] at hp
    rw [hP, ← hp]
    rfl
  · intro hnone
    subst hnone
    simp only [jsParseIntQ, Option.some.injEq] at hl
    rw [hL, ← hl]
    rfl
  · intro hnone
    subst hnone
    simp only [jsParseIntQ, Option.some.injEq] at ht
    rw [hT, ← ht]
    rfl

/-- C3 witness: page 3 stays 3, an absent listing limit defaults to 50, and a
top-products limit of 500 clamps to 100. -/
theorem pagination_clamped_witness :
    listPageNum (some "3") = some 3 ∧ listLimitNum none = some 50 ∧
    topLimitNum (some "500") = some 100 :=
  ⟨(pagination_clamped (some "3") none (some "500") 3 50 500 rfl rfl rfl).1.trans
      (by decide),
    (pagination_clamped (some "3") none (some "500") 3 50 500 rfl rfl rfl).2.1.trans
      (by decide),
    (pagination_clamped (some "3") none (some "500") 3 50 500 rfl rfl
      rfl).2.2.1.trans (by decide)⟩

/-- Inserting one row grows the length by one. -/
theorem length_orderedIns (le : Row → Row → Bool) (x : Row) (l : List Row) :
    (orderedIns le x l).length = l.length + 1 := by
  induction l with
  | nil => rfl
  | cons y ys ih =>
    unfold orderedIns
    split
    · simp
    · simp [ih]

/-- The modelled ORDER BY permutes the rows, in particular keeps the length. -/
theorem length_sortRows (le : Row → Row → Bool) (l : List Row) :
    (sortRows le l).length = l.length := by
  induction l with
  | nil => rfl
  | cons x xs ih => simp [sortRows, length_orderedIns, ih]

/-- The rounded-up quotient is the least number of pages covering all rows:
its product with the page size reaches the total and overshoots by less than
one page. -/
theorem ceilDivN_bounds (n k : Nat) (hk : 1 ≤ k) :
    n ≤ ceilDivN n k * k ∧ ceilDivN n k * k < n + k := by
  unfold ceilDivN
  have hdm := Nat.div_add_mod (n + k - 1) k
  have hml : (n + k - 1) % k < k := Nat.mod_lt _ (by omega)
  have hc : (n + k - 1) / k * k = k * ((n + k - 1) / k) := Nat.mul_comm _ _
  omega

/-- C5: for parseable pagination the listing data and count queries agree:
the returned page never exceeds the reported total, the count is the length
of the rows matching the identical predicate with no sort, limit or offset,
and totalPages is the rounded-up quotient of the total by the effective
limit. -/
theorem list_count_agrees (q : ListQuery) (tbl : List Row) (p0 l0 : Int)
    (hp : jsParseIntQ q.page 1 = some p0)
    (hl : jsParseIntQ q.limit 50 = some l0) :
    (∀ rows, listData q tbl = some rows → rows.length ≤ listTotal q tbl) ∧
    listData q tbl ≠ none ∧
    listTotal q tbl = (tbl.filter (rowMatches q)).length ∧
    (∀ l, listLimitNum q.limit = some l →
      listTotalPages q tbl =
        some (Int.ofNat (ceilDivN (listTotal q tbl) l.toNat)) ∧
      listTotal q tbl ≤ ceilDivN (listTotal q tbl) l.toNat * l.toNat ∧
      ceilDivN (listTotal q tbl) l.toNat * l.toNat <
        listTotal q tbl + l.toNat) := by
  have hP : listPageNum q.page = some (max 1 p0) := by
    unfold listPageNum; rw [hp]; rfl
  have hL : listLimitNum q.limit = some (min 1000 (max 1 l0)) := by
    unfold listLimitNum; rw [hl]; rfl
  have hO : listOffset q.page q.limit =
      some ((max 1 p0 - 1) * min 1000 (max 1 l0)) := by
    unfold listOffset; rw [hP, hL]; rfl
  have hD : listData q tbl =
      some (((listSorted q tbl).drop
          ((max 1 p0 - 1) * min 1000 (max 1 l0)).toNat).take
        (min 1000 (max 1 l0)).toNat) := by
    unfold listData; rw [hO, hL]
  have hSortLen : (listSorted q tbl).length = listTotal q tbl := by
    unfold listSorted listTotal
    exact length_sortRows _ _
  refine ⟨?_, ?_, rfl, ?_⟩
  · intro rows hrows
    rw [hD] at hrows
    injection hrows with hrows
    subst hrows
    simp only [List.length_take, List.length_drop]
    omega
  · rw [hD]
    simp
  · intro l hll
    rw [hL] at hll
    injection hll with hll
    subst hll
    have hk : 1 ≤ (min 1000 (max 1 l0)).toNat := by omega
    refine ⟨?_, (ceilDivN_bounds _ _ hk).1, (ceilDivN_bounds _ _ hk).2⟩
    unfold listTotalPages
    rw [hL]

/-- C5 witness: a one-row table with page 1 and limit 5. -/
theorem list_count_agrees_witness :
    ([row0] : List Row).length ≤ listTotal qPaged [row0] ∧
    listTotalPages qPaged [row0] =
      some (Int.ofNat (ceilDivN (listTotal qPaged [row0]) (5 : Int).toNat)) :=
  ⟨(list_count_agrees qPaged [row0] 1 5 rfl rfl).1 [row0] rfl,
    ((list_count_agrees qPaged [row0] 1 5 rfl rfl).2.2.2 5 rfl).1⟩

/-- A key matching no row makes the UPDATE row map the identity. -/
theorem map_no_match (invNo stkCode : String) (d : UpdateData)
    (tbl : List Row) (hk : ∀ r ∈ tbl, keyMatches invNo stkCode r = false) :
    tbl.map
      (fun r => if keyMatches invNo stkCode r then applyUpdate d r else r) =
      tbl := by
  induction tbl with
  | nil => rfl
  | cons x xs ih =>
    simp only [List.map_cons]
    rw [hk x (List.mem_cons_self x xs)]
    simp only [Bool.false_eq_true, if_false, List.cons.injEq, true_and]
    exact ih (fun r hr => hk r (List.mem_cons_of_mem x hr))

/-- C6: the update mutates only fields explicitly present in the body,
rejects an empty update set without any storage call and with the table
unchanged, and reports not-found with the table unchanged when the key
matches no row. -/
theorem update_partial_guarded (invNo stkCode : String) (b : UpdateBody)
    (tbl : List Row) (d : UpdateData) (hd : buildUpdate b = Except.ok d) :
    ((d.description.isSome = true → b.description ≠ JVal.undef) ∧
     (d.quantity.isSome = true → b.quantity ≠ JVal.undef) ∧
     (d.invoiceDate.isSome = true → b.invoiceDate ≠ JVal.undef) ∧
     (d.unitPrice.isSome = true → b.unitPrice ≠ JVal.undef) ∧
     (d.customerId.isSome = true → b.customerId ≠ JVal.undef) ∧
     (d.country.isSome = true → b.country ≠ JVal.undef)) ∧
    (updCount d = 0 →
      updateHandler invNo stkCode b tbl =
        (UpdateOutcome.badRequest "No fields provided for update", tbl)) ∧
    ((∀ r ∈ tbl, keyMatches invNo stkCode r = false) → updCount d ≠ 0 →
      updateHandler invNo stkCode b tbl = (UpdateOutcome.notFound, tbl)) := by
  have hdval : d = ⟨updDescription b, updQuantity b, updInvoiceDate b,
      updUnitPrice b, updCustomerId b, updCountry b⟩ := by
    unfold buildUpdate at hd
    split_ifs at hd
    exact (Except.ok.inj hd).symm
  refine ⟨?_, ?_, ?_⟩
  · subst hdval
    refine ⟨?_, ?_, ?_, ?_, ?_, ?_⟩ <;>
      · intro hsome habs
        simp_all [updDescription, updQuantity, updInvoiceDate, updUnitPrice,
          updCustomerId, updCountry]
  · intro h0
    unfold updateHandler
    simp [hd, h0]
  · intro hk hnz
    have hbeq : (updCount d == 0) = false := by
      simp [hnz]
    have hfil : tbl.filter (keyMatches invNo stkCode) = [] :=
      List.filter_eq_nil_iff.mpr (fun r hr => by simp [hk r hr])
    unfold updateHandler
    simp [hd, hbeq, hfil, map_no_match invNo stkCode d tbl hk]

/-- C6 witness: an empty body is rejected with the table untouched. -/
theorem update_partial_guarded_witness :
    updateHandler "536365" "85123A" ub0 [row0] =
      (UpdateOutcome.badRequest "No fields provided for update", [row0]) :=
  (update_partial_guarded "536365" "85123A" ub0 [row0] emptyUpdate
    (by rfl)).2.1 (by rfl)

end SalesAPI
